import Mathlib

/-!
Verification of the exam-session subsystem of the ASM-LAB-SERVER backend
(Rust, axum + sea-orm). Shallow embedding: timestamps are `Int` seconds
since the epoch, fallible handlers return `Except AppError`, and each
handler is a pure function from the database rows it reads (passed in as
arguments) to its result together with the database row state it leaves
behind. Machine-integer arithmetic from the source (the `as u64` cast and
the `u64` multiplication in the countdown deadline) is modelled with
explicit `% 2 ^ 64`.
-/

/-- Enrollment row (`src/entities/user.rs`, table `users`). The
`created_at`/`updated_at` bookkeeping columns are omitted: none of the
modelled handlers reads them and the modelled handlers never write them. -/
structure User where
  id : Int
  classroom_id : Int
  name : String
  npm : String
  code : String
  active : Bool
  exam_started_at : Option Int
  deriving DecidableEq, Repr

/-- Classroom row with the exam-configuration columns used by the modelled
routes (`routes/auth.rs`, `routes/classroom.rs`): `is_exam`, the optional
admission window `exam_start`/`exam_end`, and the per-user `time_limit` in
minutes (an `i64` column). CRUD-only columns (name, tasks, codes, ...) are
inert for the modelled handlers and omitted. -/
structure Classroom where
  id : Int
  is_exam : Bool
  exam_start : Option Int
  exam_end : Option Int
  time_limit : Int
  deriving DecidableEq, Repr

/-- `sea_orm::DbErr` as seen by `error.rs`: the `RecordNotFound` variant is
matched specially; every other variant only contributes its rendered text. -/
inductive DbErr where
  | recordNotFound (s : String)
  | other (s : String)
  deriving DecidableEq, Repr

/-- `AppError` (`src/error.rs`). -/
inductive AppError where
  | ClassroomNotFound
  | UserNotFound
  | BadRequest (msg : String)
  | Database (err : DbErr)
  | External (msg : String)
  | Unauthorized (msg : String)
  deriving DecidableEq, Repr

/-- The `thiserror`-derived `Display` rendering of `DbErr` content: opaque
here, only its presence matters. -/
def DbErr.toMessage : DbErr → String
  | .recordNotFound s => s
  | .other s => s

/-- `self.to_string()` of `AppError` per the `#[error("...")]` attributes in
`src/error.rs`. -/
def AppError.toMessage : AppError → String
  | .ClassroomNotFound => "classroom not found"
  | .UserNotFound => "user not found"
  | .BadRequest m => "invalid request: " ++ m
  | .Database e => "database error: " ++ e.toMessage
  | .External m => "external service error: " ++ m
  | .Unauthorized m => "unauthorized: " ++ m

/-- `impl IntoResponse for AppError` (`src/error.rs`): the HTTP status code
and the `message` field of the JSON body. Database errors get the fixed
body text `internal server error` (status 404 for `RecordNotFound`, 500
otherwise); every other variant surfaces its own rendering. -/
def intoResponse : AppError → Nat × String
  | .ClassroomNotFound => (404, AppError.toMessage .ClassroomNotFound)
  | .UserNotFound => (404, AppError.toMessage .UserNotFound)
  | .BadRequest m => (400, (AppError.BadRequest m).toMessage)
  | .Unauthorized m => (401, (AppError.Unauthorized m).toMessage)
  | .Database e =>
      (match e with
       | .recordNotFound _ => 404
       | .other _ => 500,
       "internal server error")
  | .External m => (502, (AppError.External m).toMessage)

/-- The two-bound admission check inside `find_classroom_for_npm`
(`src/routes/auth.rs`): the source pattern-matches
`if let (Some(start), Some(end)) = (exam_start, exam_end)`, so the timing
comparisons run only when both bounds are present; with either bound
absent the check is skipped entirely. -/
def admissionCheck (exam_start exam_end : Option Int) (now : Int) :
    Except AppError Unit :=
  match exam_start, exam_end with
  | some s, some e =>
      if now < s then .error (.Unauthorized "Ujian belum dimulai.")
      else if e < now then .error (.Unauthorized "Ujian telah berakhir.")
      else .ok ()
  | _, _ => .ok ()

/-- The guarded write of `exam_started_at` in `find_classroom_for_npm`:
`if user_model.exam_started_at.is_none()` set it to `now`, else leave the
row untouched. -/
def examStartWrite (u : User) (now : Int) : User :=
  if u.exam_started_at = none then { u with exam_started_at := some now }
  else u

/-- `find_classroom_for_npm` (`src/routes/auth.rs`), the Entry Gate.
`record` is the result of the `find_also_related` query for the npm
(the user row and its optional classroom). Returns the handler result
(the classroom info handed back to `login`, `none` when the npm has no
enrollment) paired with the user row as left in the database: the source
returns every error before issuing any update, so on errors the row is
unchanged. The same `now` value feeds both the admission check and the
timestamp write, exactly as the single `Utc::now()` in the source. -/
def find_classroom_for_npm (record : Option (User × Option Classroom))
    (now : Int) : Except AppError (Option Classroom) × Option User :=
  match record with
  | some (user_model, some classroom_model) =>
      if user_model.active = false then
        (.error (.Unauthorized "Akun ini tidak aktif."), some user_model)
      else if classroom_model.is_exam then
        match admissionCheck classroom_model.exam_start
            classroom_model.exam_end now with
        | .error err => (.error err, some user_model)
        | .ok _ =>
            (.ok (some classroom_model), some (examStartWrite user_model now))
      else
        (.ok (some classroom_model), some user_model)
  | some (user_model, none) => (.ok none, some user_model)
  | none => (.ok none, none)

/-- The `u64` value of `classroom.time_limit as u64` (`src/routes/classroom.rs`,
`classroom_events`): an `i64`-to-`u64` cast reinterprets the two's-complement
bits, i.e. reduces modulo `2 ^ 64`, so a negative limit becomes a value near
`2 ^ 64`. -/
def i64AsU64 (l : Int) : Nat := (l % (2 : Int) ^ 64).toNat

/-- The duration, in whole seconds, of
`Duration::from_secs(classroom.time_limit as u64 * 60)`: a wrapping `u64`
multiplication by 60 (release-mode semantics; a debug build would panic on
the overflow instead). -/
def durationSecs (l : Int) : Nat := (i64AsU64 l * 60) % 2 ^ 64

/-- `end_time = exam_started_at + time_limit` in `classroom_events`. The
datetime addition is modelled as exact integer addition; for durations near
`2 ^ 64` seconds the chrono addition in the source actually panics (they
exceed chrono's representable range), so such streams never open — under
either reading no event is emitted for them. -/
def endTimeSecs (t0 : Int) (l : Int) : Int := t0 + (durationSecs l : Int)

/-- Validation phase of `classroom_events` (`src/routes/classroom.rs`):
`find_classroom_and_user` first resolves the user by npm and classroom id
(`UserNotFound` when absent), then the classroom by id (`ClassroomNotFound`
when absent); then the handler rejects non-exam classrooms and users
without a recorded `exam_started_at` with `BadRequest`, before any stream
exists. On success it computes `end_time` once and opens the SSE stream;
the returned value is that deadline. -/
def classroom_events_open (user_lookup : Option User)
    (classroom_lookup : Option Classroom) : Except AppError Int :=
  match user_lookup with
  | none => .error .UserNotFound
  | some u =>
      match classroom_lookup with
      | none => .error .ClassroomNotFound
      | some c =>
          if c.is_exam = false then
            .error (.BadRequest "Not an exam classroom")
          else
            match u.exam_started_at with
            | none => .error (.BadRequest "Exam not started")
            | some t0 => .ok (endTimeSecs t0 c.time_limit)

/-- The body of the SSE loop in `classroom_events`: each iteration reads
`Utc::now()`; if `now >= end_time` it yields one `timeup` event and breaks,
otherwise it sleeps one second and loops. `ticks` is the sequence of `now`
values observed at successive iterations; the result is the list of emitted
events, each tagged with the tick at which it was emitted. The list ends at
the `break`, so anything after a `timeup` is never reached. -/
def streamRun (endTime : Int) : List Int → List (Int × String)
  | [] => []
  | now :: rest =>
      if endTime ≤ now then [(now, "timeup")]
      else streamRun endTime rest

/-- `FinishExamRequest` (`src/dto`): the payload of the completion endpoint. -/
structure FinishExamRequest where
  npm : String
  code : String
  language_id : Int
  deriving DecidableEq, Repr

/-- Whether an HTTP status code is a success (`reqwest::StatusCode::is_success`,
the 2xx class). -/
def statusIsSuccess (s : Nat) : Bool := 200 ≤ s && s < 300

/-- `finish_exam` (`src/routes/classroom.rs`), the Completion Handler.
`user_lookup` is the row found by classroom id + npm (`UserNotFound` when
absent). The handler first persists `active = false` and overwrites `code`
with the submitted code, then posts the submission to the judge; the
judge's reply is modelled by its HTTP status and body text. A non-success
status yields `AppError::External` carrying the status code and body, and
the already-persisted row is not touched again; a success returns the
judge's body to the caller. The second component is the user row as left
in the database. -/
def finish_exam (user_lookup : Option User) (payload : FinishExamRequest)
    (judge_status : Nat) (judge_body : String) :
    Except AppError String × Option User :=
  match user_lookup with
  | none => (.error .UserNotFound, none)
  | some user_model =>
      let updated := { user_model with active := false, code := payload.code }
      if statusIsSuccess judge_status = false then
        (.error (.External ("status " ++ toString judge_status ++
           " dari Judge0: " ++ judge_body)), some updated)
      else
        (.ok judge_body, some updated)

/-- Fixture: an active enrollment that has not started its exam. -/
def uFresh : User :=
  { id := 1, classroom_id := 7, name := "Alice", npm := "2306123456",
    code := "", active := true, exam_started_at := none }

/-- Fixture: `uFresh` after starting its exam at second 1000. -/
def uStarted : User := { uFresh with exam_started_at := some 1000 }

/-- Fixture: `uFresh` after starting its exam at second 0. -/
def uStarted0 : User := { uFresh with exam_started_at := some 0 }

/-- Fixture: `uFresh` deactivated. -/
def uInactive : User := { uFresh with active := false }

/-- Fixture: an exam classroom with both admission bounds set. -/
def cBothBounds : Classroom :=
  { id := 7, is_exam := true, exam_start := some 100, exam_end := some 200,
    time_limit := 30 }

/-- Fixture: an exam classroom with only `exam_start` set. -/
def cStartOnly : Classroom :=
  { id := 7, is_exam := true, exam_start := some 100, exam_end := none,
    time_limit := 30 }

/-- Fixture: a non-exam classroom. -/
def cNonExam : Classroom :=
  { id := 7, is_exam := false, exam_start := none, exam_end := none,
    time_limit := 30 }

/-- Fixture: an exam classroom with a negative time limit. -/
def cNegLimit : Classroom :=
  { id := 8, is_exam := true, exam_start := none, exam_end := none,
    time_limit := -1 }

/-- The smallest nonnegative `i64` whose minute count overflows the `u64`
seconds computation: `307445734561825861 * 60 = 2 ^ 64 + 44`. -/
def overflowLimit : Int := 307445734561825861

/-- Fixture: an exam classroom whose huge nonnegative time limit wraps the
`u64` seconds computation around to 44 seconds. -/
def cOverflow : Classroom :=
  { id := 9, is_exam := true, exam_start := none, exam_end := none,
    time_limit := overflowLimit }

/-- Fixture: a completion payload. -/
def pSubmit : FinishExamRequest :=
  { npm := "2306123456", code := "mov eax, 1", language_id := 45 }

/-- Helper: when the user's `exam_started_at` is already set, the Entry Gate
leaves the stored row exactly as it was, whatever its outcome. -/
theorem entry_gate_row_unchanged (u : User) (c : Classroom) (now t0 : Int)
    (h0 : u.exam_started_at = some t0) :
    (find_classroom_for_npm (some (u, some c)) now).2 = some u := by
  simp only [find_classroom_for_npm]
  cases hua : u.active with
  | false => simp
  | true =>
      cases hxe : c.is_exam with
      | false => simp
      | true =>
          cases hac : admissionCheck c.exam_start c.exam_end now with
          | error e => simp
          | ok v => simp [examStartWrite, h0]

/-- Claim C1 counterexample: an active user in an exam classroom whose
`exam_start = 100` is set but whose `exam_end` is absent logs in at
`now = 50 < exam_start`; the claim demands an Unauthorized rejection, but
the gate admits the user and even records `exam_started_at = 50`, because
the source runs the timing comparisons only when both bounds are present. -/
theorem entry_gate_single_bound_cex :
    uFresh.active = true ∧ cStartOnly.is_exam = true ∧
    cStartOnly.exam_start = some 100 ∧ cStartOnly.exam_end = none ∧
    (50 : Int) < 100 ∧
    find_classroom_for_npm (some (uFresh, some cStartOnly)) 50 =
      (.ok (some cStartOnly), some { uFresh with exam_started_at := some 50 }) :=
  ⟨rfl, rfl, rfl, rfl, by norm_num, rfl⟩

/-- Claim C1 (amended): the Entry Gate enforces the admission window only
when both `exam_start` and `exam_end` are set; then `now < exam_start`
rejects Unauthorized (window not open) and `now > exam_end` rejects
Unauthorized (window closed); when either bound is absent no timing check
is performed and the active user is admitted. -/
theorem entry_gate_window_amended (u : User) (c : Classroom) (now s e : Int)
    (hu : u.active = true) (hx : c.is_exam = true) :
    (c.exam_start = some s → c.exam_end = some e → now < s →
      find_classroom_for_npm (some (u, some c)) now =
        (.error (.Unauthorized "Ujian belum dimulai."), some u)) ∧
    (c.exam_start = some s → c.exam_end = some e → s ≤ now → e < now →
      find_classroom_for_npm (some (u, some c)) now =
        (.error (.Unauthorized "Ujian telah berakhir."), some u)) ∧
    (c.exam_start = none ∨ c.exam_end = none →
      find_classroom_for_npm (some (u, some c)) now =
        (.ok (some c), some (examStartWrite u now))) := by
  refine ⟨?_, ?_, ?_⟩
  · intro hs he hlt
    simp [find_classroom_for_npm, admissionCheck, hu, hx, hs, he, hlt]
  · intro hs he hge hgt
    simp [find_classroom_for_npm, admissionCheck, hu, hx, hs, he, hgt,
      not_lt.mpr hge]
  · intro hab
    rcases hab with h | h
    · cases hce : c.exam_end <;>
        simp [find_classroom_for_npm, admissionCheck, hu, hx, h, hce]
    · cases hcs : c.exam_start <;>
        simp [find_classroom_for_npm, admissionCheck, hu, hx, h, hcs]

/-- Witness for the amended claim C1 at a concrete input: both bounds set,
`now = 50` before the window, rejection with the window-not-open message. -/
theorem entry_gate_window_amended_witness :
    uFresh.active = true ∧ cBothBounds.is_exam = true ∧
    cBothBounds.exam_start = some 100 ∧ cBothBounds.exam_end = some 200 ∧
    (50 : Int) < 100 ∧
    find_classroom_for_npm (some (uFresh, some cBothBounds)) 50 =
      (.error (.Unauthorized "Ujian belum dimulai."), some uFresh) :=
  ⟨rfl, rfl, rfl, rfl, by norm_num,
   (entry_gate_window_amended uFresh cBothBounds 50 100 200 rfl rfl).1
     rfl rfl (by norm_num)⟩

/-- Claim C6: a login whose enrollment row has `active = false` is rejected
with the Unauthorized inactive-account error before any timing logic, and
the stored row is returned unchanged — in particular `exam_started_at` is
not written — whatever the classroom's exam configuration or the time. -/
theorem entry_gate_inactive (u : User) (c : Classroom) (now : Int)
    (hu : u.active = false) :
    find_classroom_for_npm (some (u, some c)) now =
      (.error (.Unauthorized "Akun ini tidak aktif."), some u) := by
  simp [find_classroom_for_npm, hu]

/-- Witness for claim C6: the concrete deactivated user is rejected at
`now = 150` inside the admission window of an exam classroom, with the row
(and its absent `exam_started_at`) unchanged. -/
theorem entry_gate_inactive_witness :
    uInactive.active = false ∧ uInactive.exam_started_at = none ∧
    find_classroom_for_npm (some (uInactive, some cBothBounds)) 150 =
      (.error (.Unauthorized "Akun ini tidak aktif."), some uInactive) :=
  ⟨rfl, rfl, entry_gate_inactive uInactive cBothBounds 150 rfl⟩

/-- Claim C4: once `exam_started_at` is set, the Entry Gate never rewrites
it: any call leaves the stored row literally unchanged (the write is
guarded by `exam_started_at.is_none()`), so two successive calls observe
the same stored timestamp and re-entry is idempotent. -/
theorem entry_gate_idempotent (u u1 u2 : User) (c : Classroom)
    (now now2 t0 : Int)
    (h0 : u.exam_started_at = some t0)
    (h1 : (find_classroom_for_npm (some (u, some c)) now).2 = some u1)
    (h2 : (find_classroom_for_npm (some (u1, some c)) now2).2 = some u2) :
    u1 = u ∧ u2 = u ∧ u2.exam_started_at = some t0 := by
  rw [entry_gate_row_unchanged u c now t0 h0] at h1
  injection h1 with h1
  subst h1
  rw [entry_gate_row_unchanged u c now2 t0 h0] at h2
  injection h2 with h2
  subst h2
  exact ⟨rfl, rfl, h0⟩

/-- Witness for claim C4: a user whose exam started at second 1000 passes
the gate twice (at 150 and 160, inside the window) and the stored row is
the same both times, with the original timestamp. -/
theorem entry_gate_idempotent_witness :
    uStarted.exam_started_at = some 1000 ∧
    (find_classroom_for_npm (some (uStarted, some cBothBounds)) 150).2 =
      some uStarted ∧
    (find_classroom_for_npm (some (uStarted, some cBothBounds)) 160).2 =
      some uStarted ∧
    (uStarted = uStarted ∧ uStarted = uStarted ∧
      uStarted.exam_started_at = some 1000) :=
  ⟨rfl, rfl, rfl,
   entry_gate_idempotent uStarted uStarted uStarted cBothBounds 150 160 1000
     rfl rfl rfl⟩

/-- Claim C10: whenever the Entry Gate succeeds for a not-yet-started user
of an exam classroom with both bounds set, the row it persists carries
`exam_started_at = now` for the very `now` that passed the admission check,
and that value lies inside the window: `exam_start ≤ now ≤ exam_end`. -/
theorem exam_start_write_in_window (u : User) (c : Classroom) (now s e : Int)
    (hx : c.is_exam = true) (hs : c.exam_start = some s)
    (he : c.exam_end = some e) (hn : u.exam_started_at = none)
    (hok : (find_classroom_for_npm (some (u, some c)) now).1 = .ok (some c)) :
    (find_classroom_for_npm (some (u, some c)) now).2 =
      some { u with exam_started_at := some now } ∧ s ≤ now ∧ now ≤ e := by
  by_cases hua : u.active = false
  · simp [find_classroom_for_npm, hua] at hok
  · by_cases h1 : now < s
    · simp [find_classroom_for_npm, admissionCheck, hua, hx, hs, he, h1]
        at hok
    · by_cases h2 : e < now
      · simp [find_classroom_for_npm, admissionCheck, hua, hx, hs, he,
          h1, h2] at hok
      · refine ⟨?_, not_lt.mp h1, not_lt.mp h2⟩
        simp [find_classroom_for_npm, admissionCheck, hua, hx, hs, he,
          h1, h2, examStartWrite, hn]

/-- Witness for claim C10: the fresh user logs in at `now = 150` inside the
window `[100, 200]`; the gate succeeds and the persisted row carries
`exam_started_at = 150`, which lies inside the window. -/
theorem exam_start_write_in_window_witness :
    cBothBounds.is_exam = true ∧ cBothBounds.exam_start = some 100 ∧
    cBothBounds.exam_end = some 200 ∧ uFresh.exam_started_at = none ∧
    (find_classroom_for_npm (some (uFresh, some cBothBounds)) 150).1 =
      .ok (some cBothBounds) ∧
    ((find_classroom_for_npm (some (uFresh, some cBothBounds)) 150).2 =
      some { uFresh with exam_started_at := some 150 } ∧
     (100 : Int) ≤ 150 ∧ (150 : Int) ≤ 200) :=
  ⟨rfl, rfl, rfl, rfl, rfl,
   exam_start_write_in_window uFresh cBothBounds 150 100 200
     rfl rfl rfl rfl rfl⟩

/-- Claim C7: opening the countdown stream fails fast with a terminal error
and no stream when the classroom is not an exam classroom (BadRequest) or
the user has no recorded `exam_started_at` (BadRequest); a missing user or
classroom yields the NotFound errors, which map to HTTP 404. -/
theorem classroom_events_validation (u : User) (c : Classroom) :
    (c.is_exam = false →
      classroom_events_open (some u) (some c) =
        .error (.BadRequest "Not an exam classroom")) ∧
    (c.is_exam = true → u.exam_started_at = none →
      classroom_events_open (some u) (some c) =
        .error (.BadRequest "Exam not started")) ∧
    (∀ copt : Option Classroom,
      classroom_events_open none copt = .error .UserNotFound) ∧
    classroom_events_open (some u) none = .error .ClassroomNotFound ∧
    intoResponse .UserNotFound = (404, "user not found") ∧
    intoResponse .ClassroomNotFound = (404, "classroom not found") := by
  refine ⟨?_, ?_, ?_, rfl, rfl, rfl⟩
  · intro h; simp [classroom_events_open, h]
  · intro h1 h2; simp [classroom_events_open, h1, h2]
  · intro copt; rfl

/-- Witness for claim C7: the concrete non-exam classroom is refused with
the BadRequest error (no stream opened). -/
theorem classroom_events_validation_witness :
    cNonExam.is_exam = false ∧
    classroom_events_open (some uStarted) (some cNonExam) =
      .error (.BadRequest "Not an exam classroom") :=
  ⟨rfl, (classroom_events_validation uStarted cNonExam).1 rfl⟩

/-- Claim C8: every database-layer error is rendered with the fixed body
message `internal server error`, independent of the error's content — two
different database errors produce identical bodies — while the NotFound,
BadRequest, Unauthorized and External variants surface their specific
reason in the message. -/
theorem error_response_mapping (e1 e2 : DbErr) (m : String) :
    (intoResponse (.Database e1)).2 = "internal server error" ∧
    (intoResponse (.Database e1)).2 = (intoResponse (.Database e2)).2 ∧
    intoResponse (.BadRequest m) = (400, "invalid request: " ++ m) ∧
    intoResponse (.Unauthorized m) = (401, "unauthorized: " ++ m) ∧
    intoResponse (.External m) = (502, "external service error: " ++ m) ∧
    intoResponse .ClassroomNotFound = (404, "classroom not found") ∧
    intoResponse .UserNotFound = (404, "user not found") :=
  ⟨rfl, rfl, rfl, rfl, rfl, rfl, rfl⟩

/-- Claim C2: when the enrollment resolves, `finish_exam` persists
`active = false` and the submitted code before contacting the judge; a
non-success judge status surfaces an External error carrying the status
code and body, and the persisted row keeps `active = false` and the new
code — indeed after every completed call, whatever the judge status, the
stored row is the deactivated one with the submitted code. -/
theorem finish_exam_error_path (u : User) (p : FinishExamRequest)
    (js : Nat) (jb : String) (h : statusIsSuccess js = false) :
    finish_exam (some u) p js jb =
      (.error (.External ("status " ++ toString js ++ " dari Judge0: " ++ jb)),
       some { u with active := false, code := p.code }) ∧
    (∀ js2 jb2, (finish_exam (some u) p js2 jb2).2 =
      some { u with active := false, code := p.code }) := by
  constructor
  · simp [finish_exam, h]
  · intro js2 jb2
    by_cases hs : statusIsSuccess js2 = false <;> simp [finish_exam, hs]

/-- Witness for claim C2: the judge answers HTTP 500 with body `boom`; the
call returns the External error carrying `500` and `boom`, and the stored
row is deactivated with the submitted code. -/
theorem finish_exam_error_path_witness :
    statusIsSuccess 500 = false ∧
    (finish_exam (some uStarted) pSubmit 500 "boom" =
      (.error (.External ("status " ++ toString (500 : Nat) ++
         " dari Judge0: " ++ "boom")),
       some { uStarted with active := false, code := pSubmit.code }) ∧
     ∀ js2 jb2, (finish_exam (some uStarted) pSubmit js2 jb2).2 =
       some { uStarted with active := false, code := pSubmit.code }) :=
  ⟨rfl, finish_exam_error_path uStarted pSubmit 500 "boom" rfl⟩

/-- Claim C9: `finish_exam` never sets `active` to true: for every found
enrollment — an already-inactive one included — the stored row after the
call is the deactivated row with the submitted code, and running the call
again on that row with the same payload produces the identical outcome, so
the local persistence step is idempotent and can never re-activate a user. -/
theorem finish_exam_idempotent (u : User) (p : FinishExamRequest)
    (js : Nat) (jb : String) :
    (finish_exam (some u) p js jb).2 =
      some { u with active := false, code := p.code } ∧
    finish_exam (some { u with active := false, code := p.code }) p js jb =
      finish_exam (some u) p js jb := by
  constructor
  · by_cases hs : statusIsSuccess js = false <;> simp [finish_exam, hs]
  · by_cases hs : statusIsSuccess js = false <;> simp [finish_exam, hs]

/-- Helper: the deadline computation collapses to `t0 + l * 60` whenever
the nonnegative minute count does not overflow the `u64` seconds
computation. -/
theorem endTimeSecs_of_no_overflow (t0 l : Int) (h0 : 0 ≤ l)
    (hov : l * 60 < 2 ^ 64) : endTimeSecs t0 l = t0 + l * 60 := by
  have hl : l < 2 ^ 64 := by nlinarith
  unfold endTimeSecs durationSecs i64AsU64
  rw [Int.emod_eq_of_lt h0 hl]
  have h60 : l.toNat * 60 < 2 ^ 64 := by omega
  rw [Nat.mod_eq_of_lt h60]
  omega

/-- Helper: if some tick reaches the deadline, the SSE loop emits exactly
one `timeup` event, at the first tick at or past the deadline, and the
event list ends there (the loop breaks). -/
theorem streamRun_fires (endTime : Int) (ticks : List Int)
    (hreach : ∃ t ∈ ticks, endTime ≤ t) :
    ∃ tf, streamRun endTime ticks = [(tf, "timeup")] ∧ endTime ≤ tf := by
  induction ticks with
  | nil => simp at hreach
  | cons a rest ih =>
      by_cases ha : endTime ≤ a
      · exact ⟨a, by simp [streamRun, ha], ha⟩
      · obtain ⟨t, ht, hle⟩ := hreach
        rcases List.mem_cons.mp ht with h | h
        · exact absurd (h ▸ hle) ha
        · obtain ⟨tf, hf1, hf2⟩ := ih ⟨t, h, hle⟩
          exact ⟨tf, by simp [streamRun, ha, hf1], hf2⟩

/-- Claim C3 (amended): for a stream opened with `exam_started_at = T0`
in an exam classroom with `time_limit = L`, `0 ≤ L`, provided `L * 60`
does not overflow the unsigned 64-bit seconds computation (true of every
realistic limit), the deadline the handler computes is exactly
`T0 + L * 60` seconds and, once some tick reaches it, the stream emits
exactly one terminal `timeup` event, at a tick at or after the deadline —
never strictly before — and closes immediately after it. -/
theorem countdown_terminal (u : User) (c : Classroom) (ticks : List Int)
    (t0 l : Int) (h1 : u.exam_started_at = some t0) (h2 : c.is_exam = true)
    (h3 : c.time_limit = l) (hl : 0 ≤ l) (hov : l * 60 < 2 ^ 64)
    (hreach : ∃ t ∈ ticks, t0 + l * 60 ≤ t) :
    classroom_events_open (some u) (some c) = .ok (t0 + l * 60) ∧
    ∃ tf, streamRun (t0 + l * 60) ticks = [(tf, "timeup")] ∧
      t0 + l * 60 ≤ tf := by
  refine ⟨?_, streamRun_fires _ ticks hreach⟩
  simp [classroom_events_open, h1, h2, h3,
    endTimeSecs_of_no_overflow t0 l hl hov]

/-- Witness for the amended claim C3: exam started at second 1000 with a
30-minute limit; ticks at 1000 and 2800 produce exactly one `timeup`, at
tick 2800 = 1000 + 30*60. -/
theorem countdown_terminal_witness :
    uStarted.exam_started_at = some 1000 ∧ cBothBounds.is_exam = true ∧
    cBothBounds.time_limit = 30 ∧ (0 : Int) ≤ 30 ∧
    (30 : Int) * 60 < 2 ^ 64 ∧
    (∃ t ∈ [(1000 : Int), 2800], (1000 : Int) + 30 * 60 ≤ t) ∧
    (classroom_events_open (some uStarted) (some cBothBounds) =
      .ok (1000 + 30 * 60) ∧
     ∃ tf, streamRun (1000 + 30 * 60) [(1000 : Int), 2800] =
       [(tf, "timeup")] ∧ (1000 : Int) + 30 * 60 ≤ tf) :=
  ⟨rfl, rfl, rfl, by norm_num, by norm_num,
   ⟨2800, by simp, by norm_num⟩,
   countdown_terminal uStarted cBothBounds [1000, 2800] 1000 30 rfl rfl rfl
     (by norm_num) (by norm_num) ⟨2800, by simp, by norm_num⟩⟩

/-- Claim C3 counterexample: for the nonnegative limit
`L = 307445734561825861` (so `L * 60 = 2 ^ 64 + 44`), the handler's `u64`
computation wraps and it opens the stream with deadline `T0 + 44` seconds;
with `T0 = 0` a tick at 44 emits the terminal `timeup` event although
`44 < T0 + L * 60`, i.e. strictly before the claimed deadline. -/
theorem countdown_early_cex :
    (0 : Int) ≤ overflowLimit ∧ uStarted0.exam_started_at = some 0 ∧
    cOverflow.is_exam = true ∧ cOverflow.time_limit = overflowLimit ∧
    classroom_events_open (some uStarted0) (some cOverflow) = .ok 44 ∧
    streamRun 44 [44] = [(44, "timeup")] ∧
    (44 : Int) < 0 + overflowLimit * 60 :=
  ⟨by norm_num [overflowLimit], rfl, rfl, rfl, rfl, rfl,
   by norm_num [overflowLimit]⟩

/-- Claim C5, evaluated at the failing input: with `time_limit = -1` the
`as u64` cast makes the duration `(2 ^ 64 - 1) * 60 mod 2 ^ 64 =
2 ^ 64 - 60` seconds, so the computed deadline lies far in the future of
`exam_started_at = 0`, not in the past, and the first tick (at second 0)
emits nothing — contradicting the already-expired behaviour the
specification prescribes for negative limits. -/
theorem negative_limit_eval :
    cNegLimit.time_limit = -1 ∧ uStarted0.exam_started_at = some 0 ∧
    classroom_events_open (some uStarted0) (some cNegLimit) =
      .ok (endTimeSecs 0 (-1)) ∧
    endTimeSecs 0 (-1) = 2 ^ 64 - 60 ∧
    (0 : Int) < endTimeSecs 0 (-1) ∧
    streamRun (endTimeSecs 0 (-1)) [0] = [] :=
  ⟨rfl, rfl, rfl, by decide, by decide, rfl⟩
